import Mathlib

/-!
Shallow embedding of the rich-NPE JVMTI agent: an exception callback that,
for a NullPointerException, decodes the faulting bytecode instruction,
optionally resolves the referenced member name from the class's raw
constant pool, formats a diagnostic message into a 400-byte buffer and
installs it into the exception's detailMessage field.

Byte buffers (bytecode arrays and serialized constant pools) are modelled
as `List Nat`; a read of byte `i` is `byteAt`, which returns 0 past the
end of the buffer and reduces every stored value mod 256 (a `u1` is one
byte). Host interactions (GetBytecodes, GetConstantPool, the cached JNI
handles, IsInstanceOf, SetObjectField) are modelled by an explicit
environment record and a result record that also tracks which host
buffers the callback fetched.
-/

namespace RichNPE

/-- JVM opcode constant from classfile_constants.h. -/
def JVM_OPC_iaload : Nat := 46

/-- JVM opcode constant from classfile_constants.h. -/
def JVM_OPC_laload : Nat := 47

/-- JVM opcode constant from classfile_constants.h. -/
def JVM_OPC_faload : Nat := 48

/-- JVM opcode constant from classfile_constants.h. -/
def JVM_OPC_daload : Nat := 49

/-- JVM opcode constant from classfile_constants.h. -/
def JVM_OPC_aaload : Nat := 50

/-- JVM opcode constant from classfile_constants.h. -/
def JVM_OPC_baload : Nat := 51

/-- JVM opcode constant from classfile_constants.h. -/
def JVM_OPC_caload : Nat := 52

/-- JVM opcode constant from classfile_constants.h. -/
def JVM_OPC_saload : Nat := 53

/-- JVM opcode constant from classfile_constants.h. -/
def JVM_OPC_iastore : Nat := 79

/-- JVM opcode constant from classfile_constants.h. -/
def JVM_OPC_lastore : Nat := 80

/-- JVM opcode constant from classfile_constants.h. -/
def JVM_OPC_fastore : Nat := 81

/-- JVM opcode constant from classfile_constants.h. -/
def JVM_OPC_dastore : Nat := 82

/-- JVM opcode constant from classfile_constants.h. -/
def JVM_OPC_aastore : Nat := 83

/-- JVM opcode constant from classfile_constants.h. -/
def JVM_OPC_bastore : Nat := 84

/-- JVM opcode constant from classfile_constants.h. -/
def JVM_OPC_castore : Nat := 85

/-- JVM opcode constant from classfile_constants.h. -/
def JVM_OPC_sastore : Nat := 86

/-- JVM opcode constant from classfile_constants.h. -/
def JVM_OPC_arraylength : Nat := 190

/-- JVM opcode constant from classfile_constants.h. -/
def JVM_OPC_getfield : Nat := 180

/-- JVM opcode constant from classfile_constants.h. -/
def JVM_OPC_putfield : Nat := 181

/-- JVM opcode constant from classfile_constants.h. -/
def JVM_OPC_invokevirtual : Nat := 182

/-- JVM opcode constant from classfile_constants.h. -/
def JVM_OPC_invokespecial : Nat := 183

/-- JVM opcode constant from classfile_constants.h. -/
def JVM_OPC_invokeinterface : Nat := 185

/-- JVM opcode constant from classfile_constants.h. -/
def JVM_OPC_monitorenter : Nat := 194

/-- JVM opcode constant from classfile_constants.h. -/
def JVM_OPC_monitorexit : Nat := 195

/-- Constant-pool tag constant from classfile_constants.h. -/
def JVM_CONSTANT_Utf8 : Nat := 1

/-- Constant-pool tag constant from classfile_constants.h. -/
def JVM_CONSTANT_Long : Nat := 5

/-- Constant-pool tag constant from classfile_constants.h. -/
def JVM_CONSTANT_Double : Nat := 6

/-- Reading one `u1` byte from a buffer: 0 past the end, value reduced mod 256. -/
def byteAt (bytes : List Nat) (i : Nat) : Nat :=
  bytes.getD i 0 % 256

/-- Embedding of `get_u2`: big-endian 16-bit read, `bytes[i] << 8 | bytes[i+1]`.
The offset argument stands for C pointer arithmetic on the buffer. -/
def get_u2 (bytes : List Nat) (i : Nat) : Nat :=
  byteAt bytes i * 256 + byteAt bytes (i + 1)

/-- Embedding of the static `cp_item_size` table of `get_cpool_at`:
length in bytes of a constant pool item with the given tag. -/
def cp_item_size : List Nat :=
  [0, 3, 0, 5, 5, 9, 9, 3, 3, 5, 5, 5, 5, 4, 3, 5, 5, 3, 3]

/-- Size in bytes of the constant-pool entry whose record begins at `off`:
the loop body of `get_cpool_at` (`tag == JVM_CONSTANT_Utf8 ? 3 + get_u2(cpool + 1)
: cp_item_size[tag]`). -/
def cpEntrySize (cpool : List Nat) (off : Nat) : Nat :=
  let tag := byteAt cpool off
  if tag = JVM_CONSTANT_Utf8 then 3 + get_u2 cpool (off + 1) else cp_item_size.getD tag 0

/-- The loop of `get_cpool_at`: advance `n` times, each time past one entry record. -/
def get_cpool_at_aux (cpool : List Nat) : Nat → Nat → Nat
  | off, 0 => off
  | off, n + 1 => get_cpool_at_aux cpool (off + cpEntrySize cpool off) n

/-- Embedding of `get_cpool_at`: returns the byte offset (the C code returns the
pointer `cpool + offset`) reached after the loop `for (i = 1; i < index; i++)`,
i.e. after advancing past `index - 1` entry records starting from offset 0. -/
def get_cpool_at (cpool : List Nat) (index : Nat) : Nat :=
  get_cpool_at_aux cpool 0 (index - 1)

/-- Embedding of `get_name_from_cpool`. The first argument is the outcome of
`jvmti->GetConstantPool`: `none` when it returns non-zero (failure), in which
case the C code returns `strdup("<unknown>")`. `bytecodes` and `loc` stand for
the `bytecodes + location` pointer passed by the caller, so the 2-byte operand
is read at `loc + 1`. On success the code chains three walker lookups
(Fieldref/Methodref, then NameAndType, then Utf8) and copies the Utf8 payload. -/
def get_name_from_cpool (cpoolResult : Option (List Nat)) (bytecodes : List Nat)
    (loc : Nat) : String :=
  match cpoolResult with
  | none => "<unknown>"
  | some cpool =>
    let ref := get_cpool_at cpool (get_u2 bytecodes (loc + 1))
    let name_and_type := get_cpool_at cpool (get_u2 cpool (ref + 3))
    let name := get_cpool_at cpool (get_u2 cpool (name_and_type + 1))
    let name_length := get_u2 cpool (name + 1)
    String.mk ((List.range name_length).map fun k => Char.ofNat (byteAt cpool (name + 3 + k)))

/-- Embedding of `get_exception_message`: the opcode-to-template switch. -/
def get_exception_message (bytecode : Nat) : Option String :=
  if bytecode = JVM_OPC_iaload then some "Load from null int array at bci %d"
  else if bytecode = JVM_OPC_laload then some "Load from null long array at bci %d"
  else if bytecode = JVM_OPC_faload then some "Load from null float array at bci %d"
  else if bytecode = JVM_OPC_daload then some "Load from null double array at bci %d"
  else if bytecode = JVM_OPC_aaload then some "Load from null Object array at bci %d"
  else if bytecode = JVM_OPC_baload then some "Load from null byte/boolean array at bci %d"
  else if bytecode = JVM_OPC_caload then some "Load from null char array at bci %d"
  else if bytecode = JVM_OPC_saload then some "Load from null short array at bci %d"
  else if bytecode = JVM_OPC_iastore then some "Store into null int array at bci %d"
  else if bytecode = JVM_OPC_lastore then some "Store into null long array at bci %d"
  else if bytecode = JVM_OPC_fastore then some "Store into null float array at bci %d"
  else if bytecode = JVM_OPC_dastore then some "Store into null double array at bci %d"
  else if bytecode = JVM_OPC_aastore then some "Store into null Object array at bci %d"
  else if bytecode = JVM_OPC_bastore then some "Store into null byte/boolean array at bci %d"
  else if bytecode = JVM_OPC_castore then some "Store into null char array at bci %d"
  else if bytecode = JVM_OPC_sastore then some "Store into null short array at bci %d"
  else if bytecode = JVM_OPC_arraylength then some "Get .length of null array"
  else if bytecode = JVM_OPC_getfield then some "Get field '%s' of null object at bci %d"
  else if bytecode = JVM_OPC_putfield then some "Put field '%s' of null object at bci %d"
  else if bytecode = JVM_OPC_invokevirtual then
    some "Called method '%s' on null object at bci %d"
  else if bytecode = JVM_OPC_invokespecial then
    some "Called method '%s' on null object at bci %d"
  else if bytecode = JVM_OPC_invokeinterface then
    some "Called method '%s' on null object at bci %d"
  else if bytecode = JVM_OPC_monitorenter then some "Synchronized on null monitor at bci %d"
  else if bytecode = JVM_OPC_monitorexit then some "Synchronized on null monitor at bci %d"
  else none

/-- Model of `strstr(message, "%s") != NULL`: the character list contains the
two-character substring percent-s. -/
def containsPS : List Char → Bool
  | '%' :: 's' :: _ => true
  | _ :: rest => containsPS rest
  | [] => false

/-- Decimal rendering worker: `fuel` bounds the recursion depth and any
`fuel` larger than the number of digits gives the exact digit string. -/
def natDecAux (fuel n : Nat) : List Char :=
  match fuel with
  | 0 => []
  | fuel + 1 =>
    if n < 10 then [Char.ofNat (48 + n)]
    else natDecAux fuel (n / 10) ++ [Char.ofNat (48 + n % 10)]

/-- Decimal digit characters of a natural number, most significant first;
models the rendering of a non-negative value under the printf d-conversion. -/
def natDecChars (n : Nat) : List Char :=
  natDecAux (n + 1) n

/-- Rendering of an int under the printf d-conversion (sign for negatives). -/
def intDecChars : Int → List Char
  | Int.ofNat n => natDecChars n
  | Int.negSucc n => '-' :: natDecChars (n + 1)

/-- One variadic printf argument: a C string or a C int. -/
inductive FmtArg where
  | s (v : List Char)
  | d (v : Int)

/-- Model of the printf formatting core: scans the format string once,
substituting each s- or d-conversion with the next argument. Only the
conversions the agent's templates use are interpreted. -/
def csprintf : List Char → List FmtArg → List Char
  | [], _ => []
  | ['%'], _ => ['%']
  | '%' :: c :: rest, args =>
    if c = 's' then
      match args with
      | FmtArg.s v :: args2 => v ++ csprintf rest args2
      | _ => csprintf rest args
    else if c = 'd' then
      match args with
      | FmtArg.d v :: args2 => intDecChars v ++ csprintf rest args2
      | _ => csprintf rest args
    else '%' :: csprintf (c :: rest) args
  | c :: rest, args => c :: csprintf rest args

/-- The C cast `(int) location`: wrap a 64-bit value to signed 32-bit. -/
def toInt32 (x : Int) : Int :=
  (x + 2 ^ 31) % 2 ^ 32 - 2 ^ 31

/-- Host-provided context of one `ExceptionCallback` invocation.
`npeCached` and `dmCached` say whether the global handles set by `VMInit`
(`NullPointerException`, `detailMessage`) are non-null; `isNPE` is the
result of `env->IsInstanceOf(exception, NullPointerException)`;
`bytecodes` is the outcome of `jvmti->GetBytecodes` (`none` = non-zero
error code) and `cpool` the outcome of `jvmti->GetConstantPool`. -/
structure CallbackEnv where
  npeCached : Bool
  dmCached : Bool
  isNPE : Bool
  bytecodes : Option (List Nat)
  cpool : Option (List Nat)
deriving DecidableEq

/-- Observable outcome of one `ExceptionCallback` invocation: the string
written into the exception's `detailMessage` field (`none` when
`SetObjectField` is never called, so the field keeps its original value),
and whether the callback invoked `GetBytecodes` / `GetConstantPool`. -/
structure CallbackResult where
  newMessage : Option String
  fetchedBytecodes : Bool
  fetchedCpool : Bool
deriving DecidableEq

/-- Embedding of `ExceptionCallback`. Mirrors the C control flow: the
guard on the cached handles and `IsInstanceOf`, the `GetBytecodes` call,
the bounds check `location >= 0 && location < bytecode_count`, the opcode
classification, and the two formatting paths — `snprintf(buf, 400, message,
name, (int) location)` when the template contains a percent-s conversion
(truncating to 399 characters plus the terminator) and `sprintf(buf,
message, (int) location)` otherwise (no truncation). -/
def ExceptionCallback (e : CallbackEnv) (location : Int) : CallbackResult :=
  if !e.npeCached || !e.dmCached || !e.isNPE then
    ⟨none, false, false⟩
  else
    match e.bytecodes with
    | none => ⟨none, true, false⟩
    | some bytecodes =>
      if 0 ≤ location ∧ location < (bytecodes.length : Int) then
        match get_exception_message (byteAt bytecodes location.toNat) with
        | none => ⟨none, true, false⟩
        | some message =>
          if containsPS message.data then
            let name := get_name_from_cpool e.cpool bytecodes location.toNat
            ⟨some (String.mk ((csprintf message.data
              [FmtArg.s name.data, FmtArg.d (toInt32 location)]).take 399)), true, true⟩
          else
            ⟨some (String.mk (csprintf message.data [FmtArg.d (toInt32 location)])),
              true, false⟩
      else ⟨none, true, false⟩

/-- The nineteen opcodes whose templates carry no symbol placeholder. -/
def nonSymbolOpcodes : List Nat :=
  [JVM_OPC_iaload, JVM_OPC_laload, JVM_OPC_faload, JVM_OPC_daload,
   JVM_OPC_aaload, JVM_OPC_baload, JVM_OPC_caload, JVM_OPC_saload,
   JVM_OPC_iastore, JVM_OPC_lastore, JVM_OPC_fastore, JVM_OPC_dastore,
   JVM_OPC_aastore, JVM_OPC_bastore, JVM_OPC_castore, JVM_OPC_sastore,
   JVM_OPC_arraylength, JVM_OPC_monitorenter, JVM_OPC_monitorexit]

/-- The twenty-four opcodes the classifier recognizes. -/
def classifiedOpcodes : List Nat :=
  [JVM_OPC_iaload, JVM_OPC_laload, JVM_OPC_faload, JVM_OPC_daload,
   JVM_OPC_aaload, JVM_OPC_baload, JVM_OPC_caload, JVM_OPC_saload,
   JVM_OPC_iastore, JVM_OPC_lastore, JVM_OPC_fastore, JVM_OPC_dastore,
   JVM_OPC_aastore, JVM_OPC_bastore, JVM_OPC_castore, JVM_OPC_sastore,
   JVM_OPC_arraylength, JVM_OPC_getfield, JVM_OPC_putfield,
   JVM_OPC_invokevirtual, JVM_OPC_invokespecial, JVM_OPC_invokeinterface,
   JVM_OPC_monitorenter, JVM_OPC_monitorexit]

/-- Specification-side walker loop, following the spec's words: advance entry
by entry, but a long- or double-valued entry consumes two consecutive logical
indices (the second left unused), as the classfile format requires. `fuel` is
the number of logical indices still to be crossed. -/
def cpoolOffsetSpecAux (cpool : List Nat) : Nat → Nat → Nat
  | off, 0 => off
  | off, f + 1 =>
    if byteAt cpool off = JVM_CONSTANT_Long ∨ byteAt cpool off = JVM_CONSTANT_Double then
      match f with
      | 0 => off + cpEntrySize cpool off
      | f2 + 1 => cpoolOffsetSpecAux cpool (off + cpEntrySize cpool off) f2
    else
      cpoolOffsetSpecAux cpool (off + cpEntrySize cpool off) f

/-- Specification-side walker: byte offset of the entry at the given 1-based
logical index, with double-width accounting for long/double entries. -/
def cpoolOffsetSpec (cpool : List Nat) (index : Nat) : Nat :=
  cpoolOffsetSpecAux cpool 0 (index - 1)

/-- Specification-side symbol resolver: the same three-lookup chain as
`get_name_from_cpool`, but using the double-width-accounting walker. -/
def nameFromCpoolSpec (cpool : List Nat) (bytecodes : List Nat) (loc : Nat) : String :=
  let ref := cpoolOffsetSpec cpool (get_u2 bytecodes (loc + 1))
  let name_and_type := cpoolOffsetSpec cpool (get_u2 cpool (ref + 3))
  let name := cpoolOffsetSpec cpool (get_u2 cpool (name_and_type + 1))
  let name_length := get_u2 cpool (name + 1)
  String.mk ((List.range name_length).map fun k => Char.ofNat (byteAt cpool (name + 3 + k)))

/-- Specification-side offset accumulation, following the spec's words: start
at entry 1 (offset 0) and add each preceding entry's tag-determined size, one
entry record per step. -/
def seqOffset (cpool : List Nat) : Nat → Nat
  | 0 => 0
  | k + 1 => seqOffset cpool k + cpEntrySize cpool (seqOffset cpool k)

/-- Rendered length of one printf argument. -/
def fmtArgLen : FmtArg → Nat
  | FmtArg.s v => v.length
  | FmtArg.d v => (intDecChars v).length

/-- A constant pool exercising the double-width rule: a Long entry occupying
logical indices 1 and 2, a Methodref at logical index 3 (name-and-type index
4), a NameAndType at logical index 4 (name index 5), and the Utf8 entry
"get" at logical index 5. -/
def longPool : List Nat :=
  [5, 0, 0, 0, 0, 0, 0, 0, 0,
   10, 0, 0, 0, 4,
   12, 0, 5, 0, 0,
   1, 0, 3, 103, 101, 116]

/-- Bytecode with `invokevirtual` at offset 19, operand index 3 (the
Methodref of `longPool`). -/
def bcLong : List Nat := List.replicate 19 0 ++ [182, 0, 3]

/-- A constant pool without double-width entries: Methodref at logical index
1 (name-and-type index 2), NameAndType at logical index 2 (name index 3),
Utf8 entry "get" at logical index 3. -/
def poolC3 : List Nat :=
  [10, 0, 0, 0, 2,
   12, 0, 3, 0, 0,
   1, 0, 3, 103, 101, 116]

/-- Bytecode with `invokevirtual` at offset 19, operand index 1 (the
Methodref of `poolC3`). -/
def bcC3 : List Nat := List.replicate 19 0 ++ [182, 0, 1]

/-- A byte read is always below 256. -/
theorem byteAt_lt (bytes : List Nat) (i : Nat) : byteAt bytes i < 256 :=
  Nat.mod_lt _ (by norm_num)

/-- Peeling the walker loop from the far end: one more iteration adds the
size of the entry the previous iterations reached. -/
theorem get_cpool_at_aux_succ (cpool : List Nat) :
    ∀ n off, get_cpool_at_aux cpool off (n + 1) =
      get_cpool_at_aux cpool off n + cpEntrySize cpool (get_cpool_at_aux cpool off n) := by
  intro n
  induction n with
  | zero => intro off; rfl
  | succ n ih =>
    intro off
    have h1 : get_cpool_at_aux cpool off (n + 1 + 1) =
        get_cpool_at_aux cpool (off + cpEntrySize cpool off) (n + 1) := rfl
    have h2 : get_cpool_at_aux cpool off (n + 1) =
        get_cpool_at_aux cpool (off + cpEntrySize cpool off) n := rfl
    rw [h1, ih, h2]

/-- The formatting core produces at most the template's length plus the
rendered lengths of the consumed arguments. -/
theorem csprintf_length (t : List Char) (args : List FmtArg) :
    (csprintf t args).length ≤ t.length + (args.map fmtArgLen).sum := by
  induction t, args using csprintf.induct with
  | case1 args =>
    have h : csprintf [] args = [] := rfl
    rw [h]
    simp
  | case2 args =>
    have h : csprintf ['%'] args = ['%'] := rfl
    rw [h]
    simp
  | case3 rest v args2 ih =>
    have h : csprintf ('%' :: 's' :: rest) (FmtArg.s v :: args2) = v ++ csprintf rest args2 := rfl
    rw [h]
    simp only [List.length_append, List.length_cons, List.map_cons, List.sum_cons, fmtArgLen]
    omega
  | case4 rest args hargs ih =>
    have h : csprintf ('%' :: 's' :: rest) args = csprintf rest args := by
      rcases args with _ | ⟨a, args2⟩
      · rfl
      · rcases a with v | v
        · exact ((hargs v args2 rfl).elim)
        · rfl
    rw [h]
    simp only [List.length_cons]
    omega
  | case5 rest v args2 hds ih =>
    have h : csprintf ('%' :: 'd' :: rest) (FmtArg.d v :: args2) =
        intDecChars v ++ csprintf rest args2 := rfl
    rw [h]
    simp only [List.length_append, List.length_cons, List.map_cons, List.sum_cons, fmtArgLen]
    omega
  | case6 rest args hargs hds ih =>
    have h : csprintf ('%' :: 'd' :: rest) args = csprintf rest args := by
      rcases args with _ | ⟨a, args2⟩
      · rfl
      · rcases a with v | v
        · rfl
        · exact ((hargs v args2 rfl).elim)
    rw [h]
    simp only [List.length_cons]
    omega
  | case7 c rest args h1 h2 ih =>
    have h : csprintf ('%' :: c :: rest) args = '%' :: csprintf (c :: rest) args := by
      simp [csprintf, h1, h2]
    rw [h]
    simp only [List.length_cons] at ih ⊢
    omega
  | case8 c rest args h1 h2 ih =>
    have hc : ¬ c = '%' := by
      intro hcp
      cases rest with
      | nil => exact h1 hcp rfl
      | cons a b => exact h2 a b hcp rfl
    have h : csprintf (c :: rest) args = c :: csprintf rest args := by
      simp [csprintf, hc]
    rw [h]
    simp only [List.length_cons]
    omega

/-- The decimal rendering worker emits at most `k` characters for inputs
below `10 ^ k`, whatever the fuel. -/
theorem natDecAux_length_le (fuel : Nat) :
    ∀ n k, 0 < k → n < 10 ^ k → (natDecAux fuel n).length ≤ k := by
  induction fuel with
  | zero =>
    intro n k hk _
    simp [natDecAux]
  | succ fuel ih =>
    intro n k hk hn
    unfold natDecAux
    by_cases h10 : n < 10
    · rw [if_pos h10]
      simpa using hk
    · rw [if_neg h10]
      have hk2 : 2 ≤ k := by
        by_contra hlt
        have hone : k = 1 := by omega
        subst hone
        rw [pow_one] at hn
        omega
      have hpow : 10 ^ (k - 1) * 10 = 10 ^ k := by
        rw [mul_comm, ← pow_succ']
        congr 1
        omega
      have hdiv : n / 10 < 10 ^ (k - 1) := by
        rw [Nat.div_lt_iff_lt_mul (by norm_num)]
        omega
      have hrec := ih (n / 10) (k - 1) (by omega) hdiv
      simp only [List.length_append, List.length_cons, List.length_nil]
      omega

/-- Decimal rendering of a natural number below `10 ^ k` (with `k` positive)
takes at most `k` characters. -/
theorem natDecChars_length_le (n k : Nat) (hk : 0 < k) (hn : n < 10 ^ k) :
    (natDecChars n).length ≤ k :=
  natDecAux_length_le (n + 1) n k hk hn

/-- The cast `(int) location` is the identity on `[0, 2^31)`. -/
theorem toInt32_eq_self (x : Int) (h0 : 0 ≤ x) (h1 : x < 2 ^ 31) : toInt32 x = x := by
  unfold toInt32
  rw [Int.emod_eq_of_lt (by omega) (by omega)]
  omega

set_option maxRecDepth 4000

/-- Every template the classifier can produce is at most 44 characters
long: decidable sweep over all opcode bytes. -/
theorem template_length_table :
    ∀ b, b < 256 → ((get_exception_message b).map String.length).getD 0 ≤ 44 := by
  decide

/-- Every template the classifier produces for a byte is at most 44
characters long. -/
theorem template_length_le (b : Nat) (hb : b < 256) (t : String)
    (heq : get_exception_message b = some t) : t.length ≤ 44 := by
  have h := template_length_table b hb
  rw [heq] at h
  simpa using h

/-- Every opcode in the non-symbol list is classified, and its template
carries no percent-s conversion. -/
theorem nonsymbol_template :
    ∀ b ∈ nonSymbolOpcodes,
      ∃ t, get_exception_message b = some t ∧ containsPS t.data = false := by
  intro b hb
  fin_cases hb <;> exact ⟨_, rfl, rfl⟩

/-- When either cached handle is null or the instance test fails, the
callback stops before any host fetch. -/
theorem callback_guard_stop (npe dm inst : Bool) (bcs : Option (List Nat))
    (cp : Option (List Nat)) (location : Int) (hg : (!npe || !dm || !inst) = true) :
    ExceptionCallback ⟨npe, dm, inst, bcs, cp⟩ location = ⟨none, false, false⟩ := by
  simp only [ExceptionCallback]
  rw [if_pos hg]

/-- Reduction of the callback on the symbol-free formatting path. -/
theorem callback_nonsymbol (npe dm inst : Bool) (bcs : List Nat) (cp : Option (List Nat))
    (location : Int) (hin : 0 ≤ location ∧ location < (bcs.length : Int)) (t : String)
    (heq : get_exception_message (byteAt bcs location.toNat) = some t)
    (hps : containsPS t.data = false) (hg : (!npe || !dm || !inst) = false) :
    ExceptionCallback ⟨npe, dm, inst, some bcs, cp⟩ location =
      ⟨some (String.mk (csprintf t.data [FmtArg.d (toInt32 location)])), true, false⟩ := by
  simp only [ExceptionCallback]
  rw [if_neg (by simp [hg])]
  rw [if_pos hin]
  simp only [heq]
  rw [if_neg (by simp [hps])]

/-- Reduction of the callback on the symbol-bearing formatting path. -/
theorem callback_symbol (npe dm inst : Bool) (bcs : List Nat) (cp : Option (List Nat))
    (location : Int) (hin : 0 ≤ location ∧ location < (bcs.length : Int)) (t : String)
    (heq : get_exception_message (byteAt bcs location.toNat) = some t)
    (hps : containsPS t.data = true) (hg : (!npe || !dm || !inst) = false) :
    ExceptionCallback ⟨npe, dm, inst, some bcs, cp⟩ location =
      ⟨some (String.mk ((csprintf t.data
        [FmtArg.s (get_name_from_cpool cp bcs location.toNat).data,
         FmtArg.d (toInt32 location)]).take 399)), true, true⟩ := by
  simp only [ExceptionCallback]
  rw [if_neg (by simp [hg])]
  rw [if_pos hin]
  simp only [heq]
  rw [if_pos hps]

/-- Walker loop started at offset 0 computes the sequential offset sum. -/
theorem get_cpool_at_aux_zero_eq_seq (cpool : List Nat) :
    ∀ k, get_cpool_at_aux cpool 0 k = seqOffset cpool k := by
  intro k
  induction k with
  | zero => rfl
  | succ k ih =>
    rw [get_cpool_at_aux_succ, ih]
    rfl

/-- C4: the opcode classifier returns a message template for exactly the
eight array-load opcodes, the eight array-store opcodes, arraylength,
getfield, putfield, invokevirtual, invokespecial, invokeinterface,
monitorenter and monitorexit; every other opcode byte yields no
diagnostic. -/
theorem C4_classifier_coverage :
    ∀ b, b < 256 → ((get_exception_message b).isSome = true ↔ b ∈ classifiedOpcodes) := by
  decide

/-- Witness for C4 at the getfield opcode. -/
theorem C4_classifier_coverage_witness :
    (get_exception_message JVM_OPC_getfield).isSome = true ↔
      JVM_OPC_getfield ∈ classifiedOpcodes :=
  C4_classifier_coverage JVM_OPC_getfield (by decide)

/-- C9: for every logical index at most 1 (including 0), the walker's loop
performs no iterations, so the returned offset is that of the buffer's
first entry record (offset 0). -/
theorem C9_walker_low_index (cpool : List Nat) (index : Nat) (h : index ≤ 1) :
    get_cpool_at cpool index = 0 := by
  have h0 : index - 1 = 0 := by omega
  unfold get_cpool_at
  rw [h0]
  rfl

/-- Witness for C9 at indices 0 and 1 on a concrete buffer. -/
theorem C9_walker_low_index_witness :
    get_cpool_at [9, 0, 0, 0, 0] 0 = 0 ∧ get_cpool_at [9, 0, 0, 0, 0] 1 = 0 :=
  ⟨C9_walker_low_index [9, 0, 0, 0, 0] 0 (by decide),
   C9_walker_low_index [9, 0, 0, 0, 0] 1 (by decide)⟩

/-- C5: the walker computes the target entry's byte offset by starting at
entry 1 (offset 0) and adding each preceding entry's tag-determined size —
the size coming from the static `cp_item_size` table, with Utf8 the sole
variable-length case (1 tag byte + 2 length bytes + payload), as laid down
in `cpEntrySize`. -/
theorem C5_walker_offset_accumulation (cpool : List Nat) (index : Nat) :
    get_cpool_at cpool index = seqOffset cpool (index - 1) :=
  get_cpool_at_aux_zero_eq_seq cpool (index - 1)

/-- C10: while either cached handle is still null, the callback returns
immediately: no bytecode fetch, no constant-pool read, no mutation. -/
theorem C10_uninitialized_noop (e : CallbackEnv) (location : Int)
    (h : e.npeCached = false ∨ e.dmCached = false) :
    ExceptionCallback e location = ⟨none, false, false⟩ := by
  unfold ExceptionCallback
  rcases h with h | h <;> rw [h] <;> simp

/-- Witness for C10 with the exception-class handle missing. -/
theorem C10_uninitialized_noop_witness :
    ExceptionCallback ⟨false, true, true, some [190], some []⟩ 0 = ⟨none, false, false⟩ :=
  C10_uninitialized_noop ⟨false, true, true, some [190], some []⟩ 0 (Or.inl rfl)

/-- C2 counterexample: when the host cannot supply the constant pool (but
bytecode retrieval succeeds) at a symbol-requiring opcode, the invocation
does not abort silently — a diagnostic with the placeholder name
`<unknown>` is synthesized and installed. -/
theorem C2_counterexample :
    (ExceptionCallback ⟨true, true, true, some [180, 0, 1], none⟩ 0).newMessage =
      some "Get field '<unknown>' of null object at bci 0" ∧
    (ExceptionCallback ⟨true, true, true, some [180, 0, 1], none⟩ 0).newMessage ≠ none := by
  decide

/-- C2 amended: when bytecode retrieval fails the invocation aborts
silently with no mutation; when only the constant pool cannot be supplied,
the symbol resolver yields the placeholder `<unknown>` (and the message is
still synthesized, as the counterexample shows). -/
theorem C2_amended_retrieval_failure :
    (∀ e location, e.bytecodes = none → (ExceptionCallback e location).newMessage = none) ∧
    (∀ bytecodes loc, get_name_from_cpool none bytecodes loc = "<unknown>") := by
  constructor
  · intro e location h
    unfold ExceptionCallback
    split
    · rfl
    · rw [h]
  · intro bytecodes loc
    rfl

/-- Witness for the amended C2 at concrete inputs. -/
theorem C2_amended_retrieval_failure_witness :
    (ExceptionCallback ⟨true, true, true, none, some []⟩ 3).newMessage = none ∧
    get_name_from_cpool none [180, 0, 1] 0 = "<unknown>" :=
  ⟨C2_amended_retrieval_failure.1 ⟨true, true, true, none, some []⟩ 3 rfl,
   C2_amended_retrieval_failure.2 [180, 0, 1] 0⟩

/-- C1: the walker's logical-index accounting does not give long/double
entries two logical indices: on a pool whose entry 1 is a Long, asking for
logical index 3 lands one record too far (offset 14, the NameAndType,
instead of offset 9, the Methodref), so the resolved name for a method
declared as "get" comes out as the empty string, while the
specification-side resolver with classfile-conformant double-width
accounting resolves "get". -/
theorem C1_long_entry_misaccounting :
    get_name_from_cpool (some longPool) bcLong 19 = "" ∧
    nameFromCpoolSpec longPool bcLong 19 = "get" ∧
    get_cpool_at longPool 3 = 14 ∧
    cpoolOffsetSpec longPool 3 = 9 ∧
    byteAt longPool 0 = JVM_CONSTANT_Long ∧
    byteAt bcLong 19 = JVM_OPC_invokevirtual := by
  decide

/-- A non-negative int renders as its natural-number digit string. -/
theorem intDecChars_ofNat (n : Nat) : intDecChars (n : Int) = natDecChars n := rfl

/-- C3 counterexample: in the scenario of a null instance-method call at
offset 19 on a method declared "get", the synthesized message is
`Called method 'get' on null object at bci 19` — without the `()` the
claim expects after the name, since the template quotes the bare name. -/
theorem C3_counterexample :
    (ExceptionCallback ⟨true, true, true, some bcC3, some poolC3⟩ 19).newMessage ≠
      some "Called method 'get()' on null object at bci 19" ∧
    (ExceptionCallback ⟨true, true, true, some bcC3, some poolC3⟩ 19).newMessage =
      some "Called method 'get' on null object at bci 19" ∧
    get_name_from_cpool (some poolC3) bcC3 19 = "get" ∧
    byteAt bcC3 19 = JVM_OPC_invokevirtual := by
  decide

/-- C3 amended: for a null instance-method invocation fault at byte offset
19 whose resolved constant-pool name is "get", the synthesized message is
exactly `Called method 'get' on null object at bci 19` (no parentheses are
added after the name). -/
theorem C3_amended_message_text (cp : Option (List Nat)) (bc : List Nat)
    (hlen : (19 : Int) < (bc.length : Int))
    (hop : byteAt bc 19 = JVM_OPC_invokevirtual ∨ byteAt bc 19 = JVM_OPC_invokespecial ∨
      byteAt bc 19 = JVM_OPC_invokeinterface)
    (hname : get_name_from_cpool cp bc 19 = "get") :
    (ExceptionCallback ⟨true, true, true, some bc, cp⟩ 19).newMessage =
      some "Called method 'get' on null object at bci 19" := by
  have heq : get_exception_message (byteAt bc (19 : Int).toNat) =
      some "Called method '%s' on null object at bci %d" := by
    rw [show (19 : Int).toNat = 19 from rfl]
    rcases hop with h | h | h <;> rw [h] <;> rfl
  rw [callback_symbol true true true bc cp 19 ⟨by norm_num, hlen⟩ _ heq (by decide) rfl]
  rw [show (19 : Int).toNat = 19 from rfl, hname]
  rfl

/-- Witness for the amended C3 on the concrete scenario pool. -/
theorem C3_amended_message_text_witness :
    (ExceptionCallback ⟨true, true, true, some bcC3, some poolC3⟩ 19).newMessage =
      some "Called method 'get' on null object at bci 19" :=
  C3_amended_message_text (some poolC3) bcC3 (by decide) (Or.inl (by decide)) (by decide)

/-- C6: if the opcode at the fault offset is unrecognized, or the fault
offset is negative or at least the bytecode length, the callback performs
no mutation: the message field keeps its original value. -/
theorem C6_unrecognized_or_oob_no_mutation (e : CallbackEnv) (bc : List Nat) (location : Int)
    (hbc : e.bytecodes = some bc)
    (h : location < 0 ∨ (bc.length : Int) ≤ location ∨
      get_exception_message (byteAt bc location.toNat) = none) :
    (ExceptionCallback e location).newMessage = none := by
  unfold ExceptionCallback
  simp only [hbc]
  split
  · rfl
  · split
    · rename_i hin
      split
      · rfl
      · rename_i t heq
        rcases h with h | h | h
        · omega
        · omega
        · rw [h] at heq
          exact Option.noConfusion heq
    · rfl

/-- Witness for C6: an out-of-bounds offset on a one-byte method. -/
theorem C6_unrecognized_or_oob_no_mutation_witness :
    (ExceptionCallback ⟨true, true, true, some [0], some []⟩ 5).newMessage = none :=
  C6_unrecognized_or_oob_no_mutation ⟨true, true, true, some [0], some []⟩ [0] 5 rfl
    (by decide)

/-- C8: at a fault whose opcode is one of the nineteen non-symbol opcodes,
the callback's outcome is identical for any two constant-pool buffer
contents and the constant pool is never fetched. -/
theorem C8_nonsymbol_independent_of_cpool (npe dm inst : Bool) (bc : List Nat)
    (cp1 cp2 : Option (List Nat)) (location : Int)
    (h0 : 0 ≤ location) (h1 : location < (bc.length : Int))
    (hop : byteAt bc location.toNat ∈ nonSymbolOpcodes) :
    ExceptionCallback ⟨npe, dm, inst, some bc, cp1⟩ location =
      ExceptionCallback ⟨npe, dm, inst, some bc, cp2⟩ location ∧
    (ExceptionCallback ⟨npe, dm, inst, some bc, cp1⟩ location).fetchedCpool = false := by
  obtain ⟨t, heq, hps⟩ := nonsymbol_template _ hop
  rcases Bool.eq_false_or_eq_true (!npe || !dm || !inst) with hg | hg
  · rw [callback_guard_stop npe dm inst (some bc) cp1 location hg,
      callback_guard_stop npe dm inst (some bc) cp2 location hg]
    exact ⟨rfl, rfl⟩
  · rw [callback_nonsymbol npe dm inst bc cp1 location ⟨h0, h1⟩ t heq hps hg,
      callback_nonsymbol npe dm inst bc cp2 location ⟨h0, h1⟩ t heq hps hg]
    exact ⟨rfl, rfl⟩

/-- Witness for C8: an `iastore` fault with two different pools. -/
theorem C8_nonsymbol_independent_of_cpool_witness :
    ExceptionCallback ⟨true, true, true, some [79], some [9, 9]⟩ 0 =
      ExceptionCallback ⟨true, true, true, some [79], none⟩ 0 ∧
    (ExceptionCallback ⟨true, true, true, some [79], some [9, 9]⟩ 0).fetchedCpool = false :=
  C8_nonsymbol_independent_of_cpool true true true [79] (some [9, 9]) none 0
    (by decide) (by decide) (by decide)

/-- C7: whatever the invocation context, any message the callback installs
fits the 400-byte buffer: at most 399 characters. The symbol-bearing path
is truncated by `snprintf`; the symbol-free path is rendered by plain
`sprintf`, but every non-symbol template (at most 44 characters) plus a
decimal offset below `2^31` (at most 10 characters) stays far below the
capacity. The hypothesis bounds the bytecode length by the host's 32-bit
signed length type. -/
theorem C7_message_within_buffer (e : CallbackEnv) (bc : List Nat) (location : Int)
    (m : String) (hbc : e.bytecodes = some bc) (hlen : bc.length < 2 ^ 31)
    (hm : (ExceptionCallback e location).newMessage = some m) :
    m.length ≤ 399 := by
  unfold ExceptionCallback at hm
  simp only [hbc] at hm
  split at hm
  · simp at hm
  · split at hm
    · rename_i hin
      split at hm
      · simp at hm
      · rename_i t heq
        split at hm
        · rename_i hps
          simp only [Option.some.injEq] at hm
          subst hm
          rw [String.length_mk]
          exact le_trans (List.length_take_le _ _) (le_refl 399)
        · rename_i hps
          simp only [Option.some.injEq] at hm
          subst hm
          rw [String.length_mk]
          have hloc31 : location < 2 ^ 31 := by
            have hc : (bc.length : Int) < ((2 : Int) ^ 31) := by exact_mod_cast hlen
            omega
          rw [toInt32_eq_self location hin.1 hloc31]
          obtain ⟨n, rfl⟩ := Int.eq_ofNat_of_zero_le hin.1
          have hnlt : n < bc.length := by exact_mod_cast hin.2
          have ht44 := template_length_le (byteAt bc ((n : Int)).toNat)
            (byteAt_lt bc ((n : Int)).toNat) t heq
          have hcs := csprintf_length t.data [FmtArg.d (n : Int)]
          simp only [List.map_cons, List.map_nil, List.sum_cons, List.sum_nil,
            fmtArgLen] at hcs
          rw [intDecChars_ofNat] at hcs
          have hnd : (natDecChars n).length ≤ 10 := by
            refine natDecChars_length_le n 10 (by norm_num) ?_
            have hp : (2 : Nat) ^ 31 ≤ 10 ^ 10 := by norm_num
            omega
          have hdl : t.data.length = t.length := rfl
          omega
    · simp at hm

/-- Witness for C7 on a concrete getfield fault. -/
theorem C7_message_within_buffer_witness :
    ("Get field '<unknown>' of null object at bci 0" : String).length ≤ 399 :=
  C7_message_within_buffer ⟨true, true, true, some [180, 0, 1], none⟩ [180, 0, 1] 0
    "Get field '<unknown>' of null object at bci 0" rfl (by norm_num) (by decide)

end RichNPE
